import Mathlib

/-!
# Verification of the SortingHat interaction orchestration core

Shallow embedding of the SortingHat kiosk application (Python/Qt) and proofs
about its orchestration core, worker lifecycle, and presenter state machines.

The embedding translates, from the source:
* `workers.py` — the group-balancing arithmetic of `DeepSeekWorker.get_system_prompt`,
  the language-attempt logic of `SpeechToTextWorker.run`, and the signal-emission
  behaviour of `TextToSpeechWorker.run`;
* `sorting_hat_app.py` — the `SortingHatApp` orchestrator state machine
  (interaction step, per-session question count, worker start/stop bookkeeping,
  error handling and UI affordances);
* `media_handler.py` — the `MediaPlayerHandler` forward/reverse video state machine,
  together with a model of the `QMediaPlayer` engine it drives;
* `animation_handler.py` — the `AnimationHandler` sprite presenter.

Qt signal/slot semantics are modelled as follows: signals emitted by the engine
objects (`QMediaPlayer`) from the GUI thread are delivered synchronously (direct
connections), so engine method calls re-enter the connected handlers; signals
from worker threads are delivered as explicit events, and a signal whose
connection has been disconnected (`_safe_stop_worker`) invokes no slot.
-/

namespace SortingHat

/-! ## Group balancing (`DeepSeekWorker.get_system_prompt`, workers.py 299-327)

The sorting-turn prompt computes `base_size = max_students // num_houses` and
`remainder = max_students % num_houses`, and gives `base_size + 1` students to
the first `remainder` houses and `base_size` to the rest. -/

/-- The list of group sizes the sorting-turn balancing logic computes:
house `i` receives `base_size + 1` students if `i < remainder`, else `base_size`. -/
def groupSizes (maxStudents numHouses : Nat) : List Nat :=
  (List.range numHouses).map (fun i =>
    if i < maxStudents % numHouses then maxStudents / numHouses + 1
    else maxStudents / numHouses)

lemma sum_range_map_ite (k q r : Nat) :
    ((List.range k).map (fun i => if i < r then q + 1 else q)).sum = k * q + min k r := by
  induction k with
  | zero => simp
  | succ n ih =>
    rw [List.range_succ, List.map_append, List.sum_append, ih]
    simp only [List.map_cons, List.map_nil, List.sum_cons, List.sum_nil]
    rcases Nat.lt_or_ge n r with h | h
    · rw [if_pos h, Nat.min_eq_left (Nat.le_of_lt h), Nat.min_eq_left h, Nat.succ_mul]
      omega
    · rw [if_neg (Nat.not_lt.mpr h), Nat.min_eq_right h,
        Nat.min_eq_right (Nat.le_succ_of_le h), Nat.succ_mul]
      omega

lemma groupSizes_mem (m n : Nat) :
    ∀ a ∈ groupSizes m n, a = m / n ∨ a = m / n + 1 := by
  intro a ha
  simp only [groupSizes, List.mem_map, List.mem_range] at ha
  obtain ⟨i, _, hi⟩ := ha
  by_cases h : i < m % n
  · right; rw [← hi, if_pos h]
  · left; rw [← hi, if_neg h]

/-- **C10.** For every `max_students ≥ 0` and `num_houses ≥ 1`, the group sizes
computed for the sorting-turn balancing prompt form exactly `num_houses` groups,
their sizes sum to `max_students`, and any two sizes differ by at most one. -/
theorem groupSizes_balanced (m n : Nat) (hn : 1 ≤ n) :
    (groupSizes m n).length = n ∧ (groupSizes m n).sum = m ∧
    ∀ a ∈ groupSizes m n, ∀ b ∈ groupSizes m n, a ≤ b + 1 := by
  refine ⟨by simp [groupSizes], ?_, ?_⟩
  · have hlt : m % n < n := Nat.mod_lt m hn
    rw [groupSizes, sum_range_map_ite, Nat.min_eq_right (Nat.le_of_lt hlt),
      Nat.div_add_mod]
  · intro a ha b hb
    rcases groupSizes_mem m n a ha with h1 | h1 <;>
      rcases groupSizes_mem m n b hb with h2 | h2 <;> omega

/-- Witness for C10 at `max_students = 7`, `num_houses = 3`. -/
theorem groupSizes_balanced_witness :
    1 ≤ 3 ∧ ((groupSizes 7 3).length = 3 ∧ (groupSizes 7 3).sum = 7 ∧
      ∀ a ∈ groupSizes 7 3, ∀ b ∈ groupSizes 7 3, a ≤ b + 1) :=
  ⟨by decide, groupSizes_balanced 7 3 (by decide)⟩

/-! ## Transcription worker (`SpeechToTextWorker.run`, workers.py 108-229)

The worker is driven by a language-mode setting (1 = primary only, 2 = secondary
only, 3 = primary then secondary) and by the speech-recognition backend, modelled
as a function from language code to a recognition result.  The worker reports back
via Qt signals; we record the emitted `status_signal` / `finished_signal` /
`error_signal` calls as a trace. -/

/-- Result of one `recognizer.recognize_google(audio_data, language=...)` call:
either recognized text, or one of the two exception classes the worker catches. -/
inductive RecogResult where
  | ok (text : String)
  | unknownValue
  | requestError (msg : String)
  deriving DecidableEq, Repr

/-- One Qt signal emission of the transcription worker. -/
inductive SttSig where
  | status (msg : String)
  | finished (text : String)
  | error (msg : String)
  deriving DecidableEq, Repr

def englishCode : String := "en-US"
def chineseCode : String := "cmn-Hans-CN"

/-- `SpeechToTextWorker.run`: the full signal trace of one run, given whether the
audio file exists, its size in bytes, the language mode, and the recognition
backend.  Translated from workers.py 120-229. -/
def sttRun (fileExists : Bool) (fileSize : Nat) (mode : Nat)
    (recognize : String → RecogResult) : List SttSig :=
  let s0 : List SttSig := [.status "Transcribing audio to text..."]
  if ¬ fileExists ∨ fileSize < 256 then
    s0 ++ [.error "Audio file for STT not found or too small.",
           .status "STT Error: Audio file missing/empty."]
  else if mode = 1 then
    s0 ++ [.status "Transcribing..."] ++
      (match recognize englishCode with
       | .ok t => [.status "Transcription complete.", .finished t]
       | .unknownValue => [.error "STT: Could not understand audio.",
                           .status "STT: Could not understand audio."]
       | .requestError e => [.error ("STT API Error: " ++ e),
                             .status "STT Error (API)."])
  else if mode = 2 then
    s0 ++ [.status "Transcribing..."] ++
      (match recognize chineseCode with
       | .ok t => [.status "Transcription complete.", .finished t]
       | .unknownValue => [.error "STT: Could not understand audio.",
                           .status "STT: Could not understand audio."]
       | .requestError e => [.error ("STT API Error: " ++ e),
                             .status "STT Error (API)."])
  else if mode = 3 then
    let s1 := s0 ++ [.status "The Sorting Hat is contemplating..."]
    -- primary attempt: any exception is swallowed and leaves primary_text = ""
    let primaryText := match recognize englishCode with
      | .ok t => t
      | _ => ""
    -- `if primary_text:` — Python truthiness: non-empty string wins
    if primaryText ≠ "" then
      s1 ++ [.finished primaryText]
    else
      match recognize chineseCode with
      | .ok t => s1 ++ [.finished t]
      | .unknownValue => s1 ++ [.error "STT: Could not understand the audio.",
                                .status "STT: Could not understand the audio."]
      | .requestError e => s1 ++ [.error ("STT API Error: " ++ e),
                                  .status "STT Error (API)."]
  else
    s0 ++ [.error "Internal Error: Invalid STT input language mode reached worker.",
           .status "STT Error: Internal config."]

/-- The texts carried by `finished_signal` emissions in a trace. -/
def finishedTexts (l : List SttSig) : List String :=
  l.filterMap (fun s => match s with | .finished t => some t | _ => none)

/-- The messages carried by `error_signal` emissions in a trace. -/
def errorMsgs (l : List SttSig) : List String :=
  l.filterMap (fun s => match s with | .error m => some m | _ => none)

/-- The primary attempt did not produce non-empty text: it either raised
(`UnknownValueError` / `RequestError`) or recognized the empty string. -/
def primaryLost (recognize : String → RecogResult) : Prop :=
  match recognize englishCode with
  | .ok t => t = ""
  | _ => True

/-- Concrete counterexample input to C8: the primary attempt fails and the
secondary attempt succeeds with blank text. -/
def c8Recog : String → RecogResult :=
  fun lang => if lang = englishCode then .unknownValue else .ok ""

/-- **C8 (counterexample).** With the primary attempt raising and the secondary
attempt succeeding with blank text — so that every attempt "fails or returns
blank text" — the worker emits `finished("")`, a success, and no error at all:
the claim that it "yields failure carrying the last error" is false on the code. -/
theorem sttMode3_blank_counterexample :
    primaryLost c8Recog ∧ c8Recog chineseCode = .ok "" ∧
    finishedTexts (sttRun true 1000 3 c8Recog) = [""] ∧
    errorMsgs (sttRun true 1000 3 c8Recog) = [] := by
  refine ⟨?_, by decide, by decide, by decide⟩
  simp [primaryLost, c8Recog, englishCode]

/-- **C8 (amended).** In primary-then-secondary mode the worker attempts the
primary language first and the secondary second; the first attempt returning
non-empty text wins and is emitted as the success result.  If the primary
attempt raises or returns empty text, the secondary attempt decides the run:
a raising secondary attempt yields failure carrying that (last) error, while a
succeeding secondary attempt is emitted as success even when its text is empty. -/
theorem sttMode3_first_nonblank_wins (recognize : String → RecogResult)
    (sz : Nat) (hsz : 256 ≤ sz) :
    (∀ t, recognize englishCode = .ok t → t ≠ "" →
      finishedTexts (sttRun true sz 3 recognize) = [t] ∧
      errorMsgs (sttRun true sz 3 recognize) = []) ∧
    (primaryLost recognize →
      (∀ t, recognize chineseCode = .ok t →
        finishedTexts (sttRun true sz 3 recognize) = [t] ∧
        errorMsgs (sttRun true sz 3 recognize) = []) ∧
      (recognize chineseCode = .unknownValue →
        finishedTexts (sttRun true sz 3 recognize) = [] ∧
        errorMsgs (sttRun true sz 3 recognize) = ["STT: Could not understand the audio."]) ∧
      (∀ e, recognize chineseCode = .requestError e →
        finishedTexts (sttRun true sz 3 recognize) = [] ∧
        errorMsgs (sttRun true sz 3 recognize) = ["STT API Error: " ++ e])) := by
  have h256 : ¬ sz < 256 := Nat.not_lt.mpr hsz
  constructor
  · intro t ht htne
    simp [sttRun, h256, ht, htne, finishedTexts, errorMsgs]
  · intro hlost
    have hprimary : (match recognize englishCode with
        | .ok t => t
        | _ => "") = "" := by
      unfold primaryLost at hlost
      cases hrec : recognize englishCode <;> simp [hrec] at hlost ⊢
      exact hlost
    refine ⟨?_, ?_, ?_⟩
    · intro t ht
      simp [sttRun, h256, hprimary, ht, finishedTexts, errorMsgs]
    · intro ht
      simp [sttRun, h256, hprimary, ht, finishedTexts, errorMsgs]
    · intro e ht
      simp [sttRun, h256, hprimary, ht, finishedTexts, errorMsgs]

/-- Concrete recognition backend for the C8 witness: primary succeeds. -/
def c8WitnessRecog : String → RecogResult :=
  fun lang => if lang = englishCode then .ok "hello" else .unknownValue

/-- Witness for C8: a primary-language success with non-empty text is the
emitted success result. -/
theorem sttMode3_first_nonblank_wins_witness :
    finishedTexts (sttRun true 1000 3 c8WitnessRecog) = ["hello"] ∧
    errorMsgs (sttRun true 1000 3 c8WitnessRecog) = [] :=
  (sttMode3_first_nonblank_wins c8WitnessRecog 1000 (by decide)).1 "hello"
    (by decide) (by decide)

/-! ## Narration worker (`TextToSpeechWorker`, workers.py 429-569)

`run()` filters the reply text, and then either (a) reports empty filtered text
via `error_signal` and returns, (b) reports an engine-initialization failure via
`error_signal` and returns, or (c) speaks; in every path the `finally` block (or
an explicit emit before `return`) fires `finished_signal`.  We record the signal
trace of one run. -/

/-- One Qt signal emission of the narration worker (`finished_signal` carries no
payload). -/
inductive TtsSig where
  | status (msg : String)
  | finished
  | error (msg : String)
  deriving DecidableEq, Repr

/-- Environment of one narration run: whether `pyttsx3.init()` succeeds, whether
`_should_stop` was set before `engine.say`, and whether `say`/`runAndWait`
raises (carrying the exception text). -/
structure TtsCfg where
  engineInitOk : Bool
  shouldStopEarly : Bool
  sayRaises : Option String
  deriving DecidableEq, Repr

/-- Characters kept by the filter regex `[^\w\s'.,?!:"“”‘’()-]` of
`_filter_text_for_tts` (workers.py 449), modelled for ASCII word characters. -/
def ttsAllowedChar (c : Char) : Bool :=
  c.isAlpha || c.isDigit || c = '_' || c.isWhitespace ||
  c = Char.ofNat 39 || c = '.' || c = ',' || c = '?' || c = '!' || c = ':' ||
  c = '"' || c = '“' || c = '”' || c = '‘' || c = '’' || c = '(' || c = ')' ||
  c = '-'

/-- The two single-character replacements of `_filter_text_for_tts`
(workers.py 447-448): em-dash becomes comma-space, asterisk is removed. -/
def ttsPreReplace (c : Char) : List Char :=
  if c = '—' then [',', ' '] else if c = '*' then [] else [c]

/-- Splits a character list into its maximal whitespace-free words
(the effect of `re.sub` with pattern backslash-s-plus followed by `strip`). -/
def wsWords : List Char → List Char → List (List Char)
  | [], cur => if cur = [] then [] else [cur.reverse]
  | c :: rest, cur =>
    if c.isWhitespace then
      if cur = [] then wsWords rest [] else cur.reverse :: wsWords rest []
    else wsWords rest (c :: cur)

/-- `TextToSpeechWorker._filter_text_for_tts` (workers.py 444-452): replace
em-dashes and asterisks, drop disallowed characters, collapse whitespace runs to
single spaces and strip. -/
def filterTextForTts (text : String) : String :=
  let replaced := text.data.flatMap ttsPreReplace
  let kept := replaced.filter ttsAllowedChar
  String.mk (List.intercalate [' '] (wsWords kept []))

/-- `TextToSpeechWorker.run` (workers.py 512-556): the signal trace of one run. -/
def ttsRun (raw : String) (cfg : TtsCfg) : List TtsSig :=
  let pre : List TtsSig := [.status "The Sorting SortingHat is preparing to speak..."]
  let text := filterTextForTts raw
  if text = "" then
    -- empty after filtering: error_signal, status_signal, finished_signal, return
    pre ++ [.error "Text to speak is empty after filtering.",
            .status "TTS Error: No speakable text.", .finished]
  else if ¬ cfg.engineInitOk then
    -- _initialize_engine() failed (emitting its error), then finished_signal, return
    pre ++ [.error "Failed to initialize Text-to-Speech engine.",
            .status "TTS Error: Engine init failed.", .finished]
  else
    let body : List TtsSig :=
      if cfg.shouldStopEarly then
        [.status "Speech was interrupted."]
      else
        match cfg.sayRaises with
        | some e => [.error ("Text-to-Speech (TTS) RuntimeError: " ++ e),
                     .status ("TTS Error: " ++ e)]
        | none => [.status "The Sorting SortingHat has spoken."]
    pre ++ body ++ [.finished]

/-- Number of `finished_signal` emissions in a narration trace. -/
def ttsFinishedCount (l : List TtsSig) : Nat :=
  (l.filter (fun s => match s with | .finished => true | _ => false)).length

/-- Number of `error_signal` emissions in a narration trace. -/
def ttsErrorCount (l : List TtsSig) : Nat :=
  (l.filter (fun s => match s with | .error _ => true | _ => false)).length

/-- Healthy narration environment for the C4 counterexample and witness. -/
def c4Cfg : TtsCfg := ⟨true, false, none⟩

/-- **C4 (counterexample).** On input `"***"` the text filter yields empty text;
the worker reports the failure via `error_signal` but ALSO emits
`finished_signal` for the same run, so the claim that it "does not additionally
emit a success/finished signal" is false on the code. -/
theorem ttsEmptyText_counterexample :
    filterTextForTts "***" = "" ∧
    ttsErrorCount (ttsRun "***" c4Cfg) = 1 ∧
    ttsFinishedCount (ttsRun "***" c4Cfg) = 1 := by
  refine ⟨by decide, by decide, by decide⟩

/-- **C4 (amended).** Every narration run emits `finished_signal` exactly once —
including the empty-filtered-text and engine-initialization-failure paths, where
an `error_signal` reporting the failure is emitted first but does not suppress
the `finished_signal`. -/
theorem ttsRun_finished_exactly_once (raw : String) (cfg : TtsCfg) :
    ttsFinishedCount (ttsRun raw cfg) = 1 ∧
    (filterTextForTts raw = "" → 1 ≤ ttsErrorCount (ttsRun raw cfg)) ∧
    (cfg.engineInitOk = false → 1 ≤ ttsErrorCount (ttsRun raw cfg)) := by
  obtain ⟨eo, ss, sr⟩ := cfg
  by_cases htext : filterTextForTts raw = "" <;>
    cases eo <;> cases ss <;> rcases sr with _ | e <;>
      simp [ttsRun, htext, ttsFinishedCount, ttsErrorCount]

/-- Witness for C4 at the concrete input `"***"` in a healthy environment. -/
theorem ttsRun_finished_exactly_once_witness :
    ttsFinishedCount (ttsRun "***" c4Cfg) = 1 ∧
    1 ≤ ttsErrorCount (ttsRun "***" c4Cfg) :=
  ⟨(ttsRun_finished_exactly_once "***" c4Cfg).1,
   (ttsRun_finished_exactly_once "***" c4Cfg).2.1 (by decide)⟩

/-! ## Sprite presenter (`AnimationHandler`, animation_handler.py)

The handler owns two `QMovie` assets (speaking, thinking).  A movie may be
absent (`None`) or present but marked load-unsuccessful; `is_ready_to_display`
requires both.  We count emissions of `animation_cycle_complete_signal` and
`animation_error_signal`; frame rendering and scaling are not modelled. -/

/-- The two sprite assets. -/
inductive MovKind where
  | speaking
  | thinking
  deriving DecidableEq, Repr

/-- `AnimationHandler` state: asset presence/load flags, active movie,
running flags, and ghost counters of emitted signals. -/
structure AnimState where
  speaking_present : Bool
  speaking_ok : Bool
  thinking_present : Bool
  thinking_ok : Bool
  active : Option MovKind
  speaking_running : Bool
  thinking_running : Bool
  completionEmits : Nat
  errorEmits : Nat
  deriving DecidableEq, Repr

/-- `is_ready_to_display` (animation_handler.py 149-155). -/
def isReadyToDisplay (k : MovKind) (s : AnimState) : Bool :=
  match k with
  | .speaking => s.speaking_ok && s.speaking_present
  | .thinking => s.thinking_ok && s.thinking_present

/-- `movie.state() == QMovie.Running` for the given asset. -/
def movRunning (k : MovKind) (s : AnimState) : Bool :=
  match k with
  | .speaking => s.speaking_running
  | .thinking => s.thinking_running

/-- `movie.stop()` for the given asset. -/
def stopMov (k : MovKind) (s : AnimState) : AnimState :=
  match k with
  | .speaking => {s with speaking_running := false}
  | .thinking => {s with thinking_running := false}

/-- `movie.start()` for the given asset. -/
def startMov (k : MovKind) (s : AnimState) : AnimState :=
  match k with
  | .speaking => {s with speaking_running := true}
  | .thinking => {s with thinking_running := true}

/-- `_emit_completion` (animation_handler.py 247-250). -/
def emitAnimCompletion (s : AnimState) : AnimState :=
  {s with completionEmits := s.completionEmits + 1}

/-- `_emit_error_and_complete` (animation_handler.py 240-245). -/
def emitAnimErrorAndComplete (s : AnimState) : AnimState :=
  emitAnimCompletion {s with errorEmits := s.errorEmits + 1}

/-- `_set_active_movie` (animation_handler.py 132-146): stop the previously
active movie if it differs and is running, then make `m` the active movie.
Label rendering is not modelled. -/
def setActiveMovie (m : Option MovKind) (s : AnimState) : AnimState :=
  let s1 := match s.active with
    | some a => if m ≠ some a ∧ movRunning a s then stopMov a s else s
    | none => s
  {s1 with active := m}

/-- `set_speaking_animation_frozen` (animation_handler.py 189-201). -/
def setSpeakingAnimationFrozen (s : AnimState) : AnimState :=
  if ¬ isReadyToDisplay .speaking s ∨ ¬ s.speaking_present then
    emitAnimErrorAndComplete s
  else
    let s1 := setActiveMovie (some .speaking) s
    let s2 := if s1.speaking_running then stopMov .speaking s1 else s1
    emitAnimCompletion s2

/-- `set_thinking_animation` (animation_handler.py 203-231): if the thinking
asset is not ready, fall back to the frozen speaking asset or report an error —
in every branch a completion is emitted.  `setSpeed`/`loopCount` assignments are
not separately modelled. -/
def setThinkingAnimation (loop : Bool) (s : AnimState) : AnimState :=
  if ¬ isReadyToDisplay .thinking s ∨ ¬ s.thinking_present then
    if isReadyToDisplay .speaking s then setSpeakingAnimationFrozen s
    else emitAnimErrorAndComplete s
  else
    let s1 := setActiveMovie (some .thinking) s
    let s2 :=
      if loop then (if ¬ s1.thinking_running then startMov .thinking s1 else s1)
      else (if s1.thinking_running then stopMov .thinking s1 else s1)
    emitAnimCompletion s2

lemma completionEmits_stopMov (k : MovKind) (s : AnimState) :
    (stopMov k s).completionEmits = s.completionEmits := by
  cases k <;> rfl

lemma completionEmits_setActiveMovie (m : Option MovKind) (s : AnimState) :
    (setActiveMovie m s).completionEmits = s.completionEmits := by
  unfold setActiveMovie
  rcases hA : s.active with _ | a
  · rfl
  · simp only []
    split
    · exact completionEmits_stopMov a s
    · rfl

lemma completionEmits_frozen (s : AnimState) :
    (setSpeakingAnimationFrozen s).completionEmits = s.completionEmits + 1 := by
  unfold setSpeakingAnimationFrozen
  split
  · rfl
  · show (if (setActiveMovie (some .speaking) s).speaking_running then
        stopMov .speaking (setActiveMovie (some .speaking) s)
      else setActiveMovie (some .speaking) s).completionEmits + 1 = _
    split <;> simp [completionEmits_stopMov, completionEmits_setActiveMovie]

/-- **C6.** Requesting the idle/thinking loop while the thinking asset is
missing or invalid (`is_ready_to_display("thinking")` false) still emits exactly
one `animation_cycle_complete_signal` — via the frozen-speaking fallback or via
`_emit_error_and_complete` — so the caller is never left waiting. -/
theorem thinking_missing_still_completes (s : AnimState) (loop : Bool)
    (h : isReadyToDisplay .thinking s = false) :
    (setThinkingAnimation loop s).completionEmits = s.completionEmits + 1 := by
  unfold setThinkingAnimation
  rw [if_pos (by simp [h])]
  split
  · exact completionEmits_frozen s
  · rfl

/-- Concrete state for the C6 witness: thinking asset missing, speaking healthy. -/
def c6State : AnimState :=
  { speaking_present := true, speaking_ok := true,
    thinking_present := false, thinking_ok := false,
    active := none, speaking_running := false, thinking_running := false,
    completionEmits := 0, errorEmits := 0 }

/-- Witness for C6 at a concrete state with the thinking asset missing. -/
theorem thinking_missing_still_completes_witness :
    isReadyToDisplay .thinking c6State = false ∧
    (setThinkingAnimation true c6State).completionEmits = c6State.completionEmits + 1 :=
  ⟨by decide, thinking_missing_still_completes c6State true (by decide)⟩

/-! ## Scene presenter (`MediaPlayerHandler`, media_handler.py)

The handler drives a `QMediaPlayer`.  Engine methods called from the GUI thread
(`play`, `pause`, `stop`, `setPosition`) synchronously emit their change signals,
re-entering the connected handlers; we model that by mutual recursion with a
fuel parameter (the `stuck` ghost flag records fuel exhaustion, and every
theorem asserts it stayed false).  `setPlaybackRate(-1.0)` leaves the rate
unchanged when the engine does not support negative rates, which is what the
`abs(rate - (-1.0)) < 0.1` check in the source detects.  Ghost fields count
`video_cycle_complete_signal` emissions and record whether the `Reversing`
state (`is_video_reversing = True`) was ever entered. -/

/-- `QMediaPlayer.PlaybackState`. -/
inductive PbState where
  | stopped
  | playing
  | paused
  deriving DecidableEq, Repr

/-- `QMediaPlayer.MediaStatus`. -/
inductive MediaStatus where
  | noMedia
  | loadingMedia
  | loadedMedia
  | stalledMedia
  | bufferingMedia
  | bufferedMedia
  | endOfMedia
  | invalidMedia
  deriving DecidableEq, Repr

/-- Qt enum value, for the `mediaStatus() >= LoadedMedia` comparison. -/
def MediaStatus.val : MediaStatus → Nat
  | .noMedia => 0
  | .loadingMedia => 1
  | .loadedMedia => 2
  | .stalledMedia => 3
  | .bufferingMedia => 4
  | .bufferedMedia => 5
  | .endOfMedia => 6
  | .invalidMedia => 7

/-- Model of the `QMediaPlayer` engine: playback state, position (ms), playback
rate (integral: the handler only ever sets `1.0` and `-1.0`), loop count, media
status, duration, and whether the backend accepts negative rates. -/
structure MPlayer where
  pstate : PbState
  position : Nat
  rate : Int
  loops : Nat
  mstatus : MediaStatus
  duration : Nat
  supportsNeg : Bool
  deriving DecidableEq, Repr

/-- `MediaPlayerHandler` state: the engine plus the handler flags
(media_handler.py 26-30) and ghost instrumentation. -/
structure MediaState where
  mp : MPlayer
  video_load_successful : Bool
  is_initializing_first_frame : Bool
  is_video_reversing : Bool
  reverse_after_play_completes : Bool
  expect_tts_related_play : Bool
  cycleEmits : Nat
  everReversing : Bool
  stuck : Bool
  deriving DecidableEq, Repr

/-- `video_cycle_complete_signal.emit()`. -/
def emitCycle (s : MediaState) : MediaState :=
  {s with cycleEmits := s.cycleEmits + 1}

/-- `setLoops`: no signal. -/
def mpSetLoops (n : Nat) (s : MediaState) : MediaState :=
  {s with mp := {s.mp with loops := n}}

/-- `setPlaybackRate`: a negative rate is ignored by a backend without
negative-rate support (the playback rate property keeps its old value). -/
def mpSetRate (r : Int) (s : MediaState) : MediaState :=
  if r < 0 ∧ ¬ s.mp.supportsNeg then s else {s with mp := {s.mp with rate := r}}

mutual

/-- `media_player.play()`: enter `PlayingState` and synchronously deliver
`playbackStateChanged` (no signal if already playing). -/
def mpPlay : Nat → MediaState → MediaState
  | 0, s => {s with stuck := true}
  | fuel + 1, s =>
    if s.mp.pstate = .playing then s
    else onPlaybackStateChanged fuel .playing
      {s with mp := {s.mp with pstate := .playing}}

/-- `media_player.pause()`: enter `PausedState` and synchronously deliver
`playbackStateChanged` (no signal if already paused). -/
def mpPause : Nat → MediaState → MediaState
  | 0, s => {s with stuck := true}
  | fuel + 1, s =>
    if s.mp.pstate = .paused then s
    else onPlaybackStateChanged fuel .paused
      {s with mp := {s.mp with pstate := .paused}}

/-- `media_player.stop()`: enter `StoppedState` with position reset to 0 and
synchronously deliver `playbackStateChanged`. -/
def mpStop : Nat → MediaState → MediaState
  | 0, s => {s with stuck := true}
  | fuel + 1, s =>
    if s.mp.pstate = .stopped then s
    else onPlaybackStateChanged fuel .stopped
      {s with mp := {s.mp with pstate := .stopped, position := 0}}

/-- `media_player.setPosition(p)`: update the position and synchronously
deliver `positionChanged`. -/
def mpSetPosition : Nat → Nat → MediaState → MediaState
  | 0, _, s => {s with stuck := true}
  | fuel + 1, p, s =>
    onMediaPositionChanged fuel p {s with mp := {s.mp with position := p}}

/-- `on_playback_state_changed` (media_handler.py 114-165). -/
def onPlaybackStateChanged : Nat → PbState → MediaState → MediaState
  | 0, _, s => {s with stuck := true}
  | fuel + 1, st, s =>
    if s.is_initializing_first_frame ∧ st = .playing then
      -- pause first (re-entrant), then clear flags and emit the cycle signal
      let s1 := mpPause fuel s
      emitCycle {s1 with is_initializing_first_frame := false,
                         is_video_reversing := false,
                         reverse_after_play_completes := false,
                         expect_tts_related_play := false}
    else if s.is_video_reversing ∧ st = .paused then
      let s1 := {s with is_video_reversing := false}
      let s2 := if s1.reverse_after_play_completes then
          {s1 with reverse_after_play_completes := false} else s1
      setToFrozenState fuel s2
    else if st = .stopped then
      if s.is_video_reversing then
        let s1 := {s with is_video_reversing := false}
        let s2 := if s1.reverse_after_play_completes then
            {s1 with reverse_after_play_completes := false} else s1
        setToFrozenState fuel s2
      else if s.is_initializing_first_frame ∧
          MediaStatus.loadedMedia.val ≤ s.mp.mstatus.val then
        mpPlay fuel s
      else s
    else if ¬ s.is_initializing_first_frame ∧ ¬ s.is_video_reversing ∧
        ¬ s.reverse_after_play_completes ∧ ¬ s.expect_tts_related_play ∧
        st = .playing then
      -- defensive check for unexpected play
      mpPause fuel s
    else s

/-- `on_media_position_changed` (media_handler.py 211-217). -/
def onMediaPositionChanged : Nat → Nat → MediaState → MediaState
  | 0, _, s => {s with stuck := true}
  | fuel + 1, pos, s =>
    if s.is_video_reversing ∧ s.mp.rate < 0 then
      if pos ≤ 50 then mpPause fuel s else s
    else s

/-- `on_media_status_changed` (media_handler.py 219-266). -/
def onMediaStatusChanged : Nat → MediaStatus → MediaState → MediaState
  | 0, _, s => {s with stuck := true}
  | fuel + 1, status, s =>
    if status = .loadedMedia ∧ s.is_initializing_first_frame then
      if s.mp.pstate = .stopped then
        mpPlay fuel (mpSetPosition fuel 0 s)
      else s
    else if status = .endOfMedia then
      if s.reverse_after_play_completes ∧ ¬ s.is_video_reversing then
        let s1 := mpPause fuel s
        let s2 := mpSetRate (-1) s1
        if s2.mp.rate = -1 then
          -- rate accepted: enter Reversing and play backwards
          mpPlay fuel {s2 with is_video_reversing := true, everReversing := true}
        else
          -- rate rejected: skip reversal, go straight to Frozen
          setToFrozenState fuel
            {s2 with is_video_reversing := false,
                     reverse_after_play_completes := false}
      else if s.is_video_reversing then
        mpPause fuel s
      else
        if s.mp.pstate ≠ .paused ∨ s.mp.position ≠ 0 then
          setToFrozenState fuel s
        else s
    else if (status = .bufferingMedia ∨ status = .bufferedMedia) ∧
        s.is_initializing_first_frame ∧ s.mp.pstate = .stopped then
      mpPlay fuel (mpSetPosition fuel 0 s)
    else s

/-- `set_to_frozen_state` (media_handler.py 82-112). -/
def setToFrozenState : Nat → MediaState → MediaState
  | 0, s => {s with stuck := true}
  | fuel + 1, s =>
    if ¬ s.video_load_successful then emitCycle s
    else
      let s1 := mpSetRate 1 (mpSetLoops 1 s)
      let s2 := {s1 with expect_tts_related_play := false}
      let s3 := if s2.mp.pstate = .playing then mpStop fuel s2 else s2
      let s4 := mpSetPosition fuel 0 s3
      if s4.mp.pstate = .stopped ∨ (s4.mp.pstate = .paused ∧ s4.mp.position ≠ 0) then
        mpPlay fuel {s4 with is_initializing_first_frame := true}
      else if s4.mp.pstate = .paused ∧ s4.mp.position = 0 then
        emitCycle {s4 with is_initializing_first_frame := false,
                           is_video_reversing := false,
                           reverse_after_play_completes := false}
      else
        mpPlay fuel {s4 with is_initializing_first_frame := true}

end

/-- `play_for_tts` (media_handler.py 168-179): the forward-once play commanded
when narration starts. -/
def playForTts (fuel : Nat) (s : MediaState) : MediaState :=
  if ¬ s.video_load_successful then s
  else
    let s1 := {s with is_initializing_first_frame := false,
                      reverse_after_play_completes := false,
                      is_video_reversing := false,
                      expect_tts_related_play := true}
    let s2 := mpSetRate 1 (mpSetLoops 1 s1)
    mpPlay fuel (mpSetPosition fuel 0 s2)

/-- `tts_audio_has_finished` (media_handler.py 181-208): record the pending
reverse request; evaluate the reversal path immediately when already at or near
the end, otherwise wait for the natural end-of-media. -/
def mediaTtsAudioHasFinished (fuel : Nat) (s : MediaState) : MediaState :=
  if ¬ s.video_load_successful then emitCycle s
  else
    let s1 := {s with expect_tts_related_play := false,
                      reverse_after_play_completes := true}
    let dur := s1.mp.duration
    let pos := s1.mp.position
    let endMargin := if 0 < dur then min 100 (dur * 5 / 100) else 100
    if s1.mp.mstatus = .endOfMedia ∨
        (s1.mp.pstate ≠ .playing ∧ 0 < dur ∧ dur - endMargin ≤ pos) then
      onMediaStatusChanged fuel .endOfMedia s1
    else if s1.mp.pstate = .playing then s1
    else
      setToFrozenState fuel {s1 with reverse_after_play_completes := false}

/-- The natural end-of-media engine event: the player stops at the final
position, delivering `playbackStateChanged(Stopped)` and then
`mediaStatusChanged(EndOfMedia)`. -/
def endOfMediaEvent (fuel : Nat) (s : MediaState) : MediaState :=
  let s1 := {s with mp := {s.mp with pstate := .stopped, position := s.mp.duration}}
  let s2 := onPlaybackStateChanged fuel .stopped s1
  let s3 := {s2 with mp := {s2.mp with mstatus := .endOfMedia}}
  onMediaStatusChanged fuel .endOfMedia s3

/-- A `positionChanged(p)` engine event while the clip plays. -/
def positionEvent (fuel : Nat) (p : Nat) (s : MediaState) : MediaState :=
  onMediaPositionChanged fuel p {s with mp := {s.mp with position := p}}

/-- The presenter frozen at frame zero (paused, position 0, forward rate, media
buffered, no pending flags), with a 4000 ms clip; `supportsNeg` selects whether
the backend accepts negative playback rates. -/
def frozenStart (supportsNeg : Bool) : MediaState :=
  { mp := { pstate := .paused, position := 0, rate := 1, loops := 1,
            mstatus := .bufferedMedia, duration := 4000, supportsNeg := supportsNeg },
    video_load_successful := true, is_initializing_first_frame := false,
    is_video_reversing := false, reverse_after_play_completes := false,
    expect_tts_related_play := false, cycleEmits := 0, everReversing := false,
    stuck := false }

/-- Fuel bound for the scenario traces (the re-entrant call chains of the
handler are much shorter than this). -/
def mediaFuel : Nat := 30

/-- The C5 scenario trace: from `Frozen`, forward play for narration, narration
finishes (pending reverse request), natural end-of-media with negative rate
supported, then a position-near-zero event (position 30 ≤ tolerance 50) while
reversing. -/
def c5Run : MediaState :=
  positionEvent mediaFuel 30
    (endOfMediaEvent mediaFuel
      (mediaTtsAudioHasFinished mediaFuel
        (playForTts mediaFuel (frozenStart true))))

/-- **C5.** The whole forward-plus-reverse cycle returns to `Frozen(pos=0)`
(paused at position 0, no pending flags) having actually entered the
`Reversing` state, and emits the cycle-complete signal exactly once — not once
per sub-transition.  The fuel bound was not exhausted. -/
theorem forward_reverse_cycle_emits_once :
    c5Run.cycleEmits = 1 ∧
    c5Run.mp.pstate = .paused ∧
    c5Run.mp.position = 0 ∧
    c5Run.everReversing = true ∧
    c5Run.is_video_reversing = false ∧
    c5Run.reverse_after_play_completes = false ∧
    c5Run.stuck = false := by
  decide

/-- The C7 scenario trace: identical call sequence to C5, but the backend
rejects the negative playback rate. -/
def c7Run : MediaState :=
  endOfMediaEvent mediaFuel
    (mediaTtsAudioHasFinished mediaFuel
      (playForTts mediaFuel (frozenStart false)))

/-- **C7.** When the engine rejects rate −1.0 at end-of-media with a pending
reverse request, the presenter skips reversal and goes straight to
`Frozen(pos=0)`: the `Reversing` state (`is_video_reversing`) is never entered
at any point of the trace, and the single cycle-complete signal of the
transition is emitted.  The fuel bound was not exhausted. -/
theorem unsupported_reverse_goes_straight_to_frozen :
    c7Run.everReversing = false ∧
    c7Run.is_video_reversing = false ∧
    c7Run.mp.pstate = .paused ∧
    c7Run.mp.position = 0 ∧
    c7Run.cycleEmits = 1 ∧
    c7Run.stuck = false := by
  decide

/-! ## Session orchestrator (`SortingHatApp`, sorting_hat_app.py)

The orchestrator owns the session counters, the oracle state, the button
affordances and one worker slot per kind.  Worker signal connections are
modelled per kind as `Option Nat`: `some h` means the signals of the worker
with handle `h` are connected to the orchestrator slots; `_safe_stop_worker`
disconnects them (`none`), after which Qt delivers that worker's emissions to
no slot.  `random.randint(3, 5)` is modelled by a stream of draws `rng` with a
cursor `rng_idx`: a reset consumes one draw `n` and chooses `3 + n % 3`, which
ranges over exactly the values `randint(3, 5)` can return.  Ghost fields:
`questions_asked` counts the increments of `interaction_step` since the last
reset (the questions asked this session), `errors_shown` counts
`QMessageBox.warning` calls in `_handle_ui_error`. -/

/-- `current_oracle_state` values (sorting_hat_app.py 59). -/
inductive OracleState where
  | idle
  | thinking
  | speaking
  deriving DecidableEq, Repr

/-- The four worker kinds. -/
inductive WorkerKind where
  | recorder
  | stt
  | deepseek
  | tts
  deriving DecidableEq, Repr

/-- The last command issued to the sprite presenter. -/
inductive AnimCmd where
  | thinkingLoop
  | speakingActive
  deriving DecidableEq, Repr

/-- Orchestrator state (`SortingHatApp` instance fields plus UI affordances,
worker-connection bookkeeping, the randomness stream and ghost counters). -/
structure AppState where
  interaction_step : Nat
  questions_to_ask_this_session : Nat
  current_oracle_state : OracleState
  activate_enabled : Bool
  record_enabled : Bool
  stop_enabled : Bool
  status : String
  oracle_text : String
  your_text : String
  just_sorted_flag : Bool
  anim_cmd : Option AnimCmd
  recorder_conn : Option Nat
  stt_conn : Option Nat
  deepseek_conn : Option Nat
  tts_conn : Option Nat
  next_handle : Nat
  rng : Nat → Nat
  rng_idx : Nat
  questions_asked : Nat
  errors_shown : Nat

/-- `FINAL_SORTING_STEP_COMPLETE = 99` (sorting_hat_app.py 23). -/
def FINAL_SORTING_STEP_COMPLETE : Nat := 99

/-- External collaborators of the orchestrator: the filesystem holding the
audio artifact and the API-key configuration. -/
structure Env where
  fileExists : String → Bool
  fileSize : String → Nat
  apiKeyOk : Bool

/-- Python `str.strip()` over the modelled whitespace set. -/
def pyStrip (s : String) : String :=
  String.mk (((s.data.dropWhile Char.isWhitespace).reverse.dropWhile
    Char.isWhitespace).reverse)

/-- The connection slot of a worker kind. -/
def connOf (k : WorkerKind) (σ : AppState) : Option Nat :=
  match k with
  | .recorder => σ.recorder_conn
  | .stt => σ.stt_conn
  | .deepseek => σ.deepseek_conn
  | .tts => σ.tts_conn

/-- Creating a worker of kind `k` and connecting its signals
(`... .connect(...)` then `.start()`): the fresh handle is `next_handle`. -/
def startWorker (k : WorkerKind) (σ : AppState) : AppState :=
  let h := σ.next_handle
  let σ1 := match k with
    | .recorder => {σ with recorder_conn := some h}
    | .stt => {σ with stt_conn := some h}
    | .deepseek => {σ with deepseek_conn := some h}
    | .tts => {σ with tts_conn := some h}
  {σ1 with next_handle := h + 1}

/-- `_stop_all_active_workers` (sorting_hat_app.py 147-157): `_safe_stop_worker`
disconnects each running worker's `finished`/`error`/`status` signals and the
references are cleared. -/
def stopAllActiveWorkers (σ : AppState) : AppState :=
  {σ with recorder_conn := none, stt_conn := none,
          deepseek_conn := none, tts_conn := none}

/-- `_update_status_bar`. -/
def setStatus (m : String) (σ : AppState) : AppState :=
  {σ with status := m}

/-- `_reset_interaction_flow_and_ui` (sorting_hat_app.py 159-185): stop all
workers, draw `questions_to_ask_this_session = randint(3, 5)`, reset the step,
oracle state, buttons and transcripts, and command the thinking loop. -/
def resetInteractionFlowAndUi (msg : String) (σ : AppState) : AppState :=
  let σ1 := stopAllActiveWorkers σ
  { σ1 with
    questions_to_ask_this_session := 3 + σ1.rng σ1.rng_idx % 3,
    rng_idx := σ1.rng_idx + 1,
    interaction_step := 0,
    current_oracle_state := .idle,
    activate_enabled := true, record_enabled := true, stop_enabled := false,
    oracle_text := "", your_text := "",
    status := msg,
    just_sorted_flag := false,
    anim_cmd := some .thinkingLoop,
    questions_asked := 0 }

/-- `_handle_ui_error` (sorting_hat_app.py 420-424): show a warning box, then
perform a full session reset. -/
def handleUiError (msg : String) (σ : AppState) : AppState :=
  resetInteractionFlowAndUi ("Error: " ++ ((msg.splitOn ".").headD msg) ++ ". Resetting.")
    {σ with errors_shown := σ.errors_shown + 1}

/-- `_prepare_for_oracle_thinking` (sorting_hat_app.py 215-223). -/
def prepareForOracleThinking (msg : String) (σ : AppState) : AppState :=
  let σ1 := setStatus msg σ
  {σ1 with stop_enabled := false, anim_cmd := some .thinkingLoop,
           current_oracle_state := .thinking}

/-- `on_recording_session_finished` (sorting_hat_app.py 293-323): empty/missing
audio or a file below 1024 bytes is a recoverable error; otherwise the
transcription worker is started. -/
def onRecordingSessionFinished (env : Env) (path : String) (σ : AppState) : AppState :=
  let σ1 := {σ with activate_enabled := true, record_enabled := true,
                    stop_enabled := false}
  let σ2 := prepareForOracleThinking "Processing your words..." σ1
  if path = "" ∨ env.fileExists path = false ∨ env.fileSize path < 1024 then
    handleUiError "No audio captured or recording was too short." σ2
  else
    startWorker .stt (setStatus "Transcribing audio to text..." σ2)

/-- `on_stt_conversion_finished` (sorting_hat_app.py 325-354): blank text is a
recoverable error (handled through `_handle_ui_error`, then a retry prompt that
reads the step counter after the error handling ran); otherwise the dialogue
worker is started with the current step. -/
def onSttConversionFinished (env : Env) (text : String) (σ : AppState) : AppState :=
  if pyStrip text = "" then
    let σ1 := handleUiError "Could not understand what you said." σ
    let σ2 := setStatus ("Please try answering question " ++
      toString (σ1.interaction_step + 1) ++ " again.") σ1
    {σ2 with anim_cmd := some .thinkingLoop}
  else
    let σ1 := setStatus "Transcription complete. Consulting the Oracle..."
      {σ with your_text := text}
    if env.apiKeyOk = false then
      handleUiError "DeepSeek API Key is not configured." σ1
    else
      startWorker .deepseek σ1

/-- `on_deepseek_response_received` (sorting_hat_app.py 356-378): store the
reply, enter speaking; if `step < questions_to_ask_this_session` increment the
step (a question was asked), else set the terminal sentinel; command the
speaking sprite and start the narration worker. -/
def onDeepseekResponseReceived (text : String) (σ : AppState) : AppState :=
  let σ1 := {σ with oracle_text := text, current_oracle_state := .speaking}
  let σ2 :=
    if σ1.interaction_step < σ1.questions_to_ask_this_session then
      setStatus ("Oracle asks question " ++ toString (σ1.interaction_step + 1) ++
        ". Preparing to speak...")
        {σ1 with interaction_step := σ1.interaction_step + 1,
                 questions_asked := σ1.questions_asked + 1}
    else
      setStatus "Oracle has made its decision. Preparing to speak..."
        {σ1 with interaction_step := FINAL_SORTING_STEP_COMPLETE}
  startWorker .tts {σ2 with anim_cmd := some .speakingActive}

/-- `on_tts_playback_finished` (sorting_hat_app.py 380-402): after the sorting
decision a full reset; otherwise re-prompt for the next answer. -/
def onTtsPlaybackFinished (σ : AppState) : AppState :=
  let σ1 := {setStatus "Oracle has spoken." σ with current_oracle_state := .thinking}
  if σ1.interaction_step = FINAL_SORTING_STEP_COMPLETE then
    resetInteractionFlowAndUi "Sorting complete. Waiting for the next student..."
      {σ1 with just_sorted_flag := true}
  else
    let σ2 := setStatus ("Please answer the question (Q" ++
      toString σ1.interaction_step ++ ").") σ1
    {σ2 with anim_cmd := some .thinkingLoop, record_enabled := true,
             stop_enabled := false, activate_enabled := true}

/-- `activate_oracle_interaction` (sorting_hat_app.py 225-245): full reset,
think, and start the dialogue worker for the first question. -/
def activateOracleInteraction (σ : AppState) : AppState :=
  let σ1 := resetInteractionFlowAndUi "Activating Oracle..." σ
  let σ2 := setStatus "Oracle is preparing its first question..."
    {σ1 with interaction_step := 0}
  startWorker .deepseek {σ2 with current_oracle_state := .thinking}

/-- `_start_audio_recording_common` (sorting_hat_app.py 261-278): arm the stop
button and start a fresh capture worker (bailing out if an old one is somehow
still connected, mirroring the `isRunning` guard). -/
def startAudioRecordingCommon (σ : AppState) : AppState :=
  let σ1 := setStatus "Listening... Press Stop Recording when done."
    {σ with activate_enabled := true, record_enabled := false, stop_enabled := true}
  if σ1.recorder_conn ≠ none then σ1
  else startWorker .recorder σ1

/-- `start_recording_router` (sorting_hat_app.py 247-258): from a fresh idle
session a full reset, otherwise an interrupt that stops all active workers,
then the common recording start. -/
def startRecordingRouter (σ : AppState) : AppState :=
  let σ1 :=
    if σ.interaction_step = 0 ∧ σ.current_oracle_state = .idle then
      resetInteractionFlowAndUi "Preparing for your input..." σ
    else
      setStatus "Listening for your answer..."
        {stopAllActiveWorkers σ with your_text := ""}
  startAudioRecordingCommon σ1

/-- `stop_audio_recording` (sorting_hat_app.py 280-291): a no-op unless the
stop button is armed; asks the capture worker to drain (it will deliver its
finished signal later) and rearms the buttons. -/
def stopAudioRecording (σ : AppState) : AppState :=
  if σ.stop_enabled = false then σ
  else
    setStatus "Recording stopped, processing audio..."
      {σ with stop_enabled := false, record_enabled := true, activate_enabled := true}

/-- Events driving the orchestrator: the three user actions, and the
`finished_signal` / `error_signal` deliveries of each worker kind (tagged with
the emitting worker's handle). -/
inductive Ev where
  | activate
  | recordBtn
  | stopBtn
  | recorderDone (h : Nat) (path : String)
  | recorderErr (h : Nat) (msg : String)
  | sttDone (h : Nat) (text : String)
  | sttErr (h : Nat) (msg : String)
  | deepseekDone (h : Nat) (text : String)
  | deepseekErr (h : Nat) (msg : String)
  | ttsDone (h : Nat)
  | ttsErr (h : Nat) (msg : String)

/-- Qt delivery of a worker signal: the connected slot runs only if the signal
of worker `h` is still connected for that kind; a disconnected or superseded
worker's emission invokes no slot and leaves the state unchanged. -/
def guarded (conn : Option Nat) (h : Nat) (act : AppState → AppState)
    (σ : AppState) : AppState :=
  if conn = some h then act σ else σ

/-- One orchestrator step: dispatch an event to the connected slot
(sorting_hat_app.py 456-460 for the error slots). -/
def stepEv (env : Env) (σ : AppState) (e : Ev) : AppState :=
  match e with
  | .activate => activateOracleInteraction σ
  | .recordBtn => startRecordingRouter σ
  | .stopBtn => stopAudioRecording σ
  | .recorderDone h p => guarded σ.recorder_conn h (onRecordingSessionFinished env p) σ
  | .recorderErr h m =>
      guarded σ.recorder_conn h (handleUiError ("Recording Problem: " ++ m)) σ
  | .sttDone h t => guarded σ.stt_conn h (onSttConversionFinished env t) σ
  | .sttErr h m =>
      guarded σ.stt_conn h (handleUiError ("Speech-to-Text Problem: " ++ m)) σ
  | .deepseekDone h t => guarded σ.deepseek_conn h (onDeepseekResponseReceived t) σ
  | .deepseekErr h m =>
      guarded σ.deepseek_conn h (handleUiError ("DeepSeek API Problem: " ++ m)) σ
  | .ttsDone h => guarded σ.tts_conn h onTtsPlaybackFinished σ
  | .ttsErr h m =>
      guarded σ.tts_conn h (handleUiError ("Text-to-Speech Problem: " ++ m)) σ

/-- A run of the orchestrator over an event list. -/
def runApp (env : Env) (σ : AppState) (evs : List Ev) : AppState :=
  evs.foldl (stepEv env) σ

/-- The state after `__init__` (sorting_hat_app.py 26-81), whose tail performs
the initial `_reset_interaction_flow_and_ui`. -/
def initAppState (rng : Nat → Nat) : AppState :=
  resetInteractionFlowAndUi "Waiting for a lucky student..."
    { interaction_step := 0, questions_to_ask_this_session := 0,
      current_oracle_state := .idle, activate_enabled := true,
      record_enabled := true, stop_enabled := false, status := "",
      oracle_text := "", your_text := "", just_sorted_flag := false,
      anim_cmd := none, recorder_conn := none, stt_conn := none,
      deepseek_conn := none, tts_conn := none, next_handle := 0,
      rng := rng, rng_idx := 0, questions_asked := 0, errors_shown := 0 }

/-! ### Classification of the orchestrator transitions

Every event either performs a full session reset, leaves the session core
(step, question counters, randomness cursor) untouched, or is a dialogue
success that advances the step. -/

/-- The session core after a full reset: step and asked-count zeroed, a fresh
draw for the planned question count, the randomness cursor advanced once. -/
def ResetLike (σ σ2 : AppState) : Prop :=
  σ2.interaction_step = 0 ∧ σ2.questions_asked = 0 ∧
  σ2.questions_to_ask_this_session = 3 + σ.rng σ.rng_idx % 3 ∧
  σ2.rng_idx = σ.rng_idx + 1

/-- The session core untouched. -/
def CoreUnchanged (σ σ2 : AppState) : Prop :=
  σ2.interaction_step = σ.interaction_step ∧
  σ2.questions_asked = σ.questions_asked ∧
  σ2.questions_to_ask_this_session = σ.questions_to_ask_this_session ∧
  σ2.rng_idx = σ.rng_idx

/-- The dialogue-success update: below the planned count the step and the
asked-count advance by one, otherwise the step becomes the terminal sentinel. -/
def StepAdvance (σ σ2 : AppState) : Prop :=
  (σ.interaction_step < σ.questions_to_ask_this_session ∧
    σ2.interaction_step = σ.interaction_step + 1 ∧
    σ2.questions_asked = σ.questions_asked + 1 ∧
    σ2.questions_to_ask_this_session = σ.questions_to_ask_this_session ∧
    σ2.rng_idx = σ.rng_idx) ∨
  (¬ σ.interaction_step < σ.questions_to_ask_this_session ∧
    σ2.interaction_step = FINAL_SORTING_STEP_COMPLETE ∧
    σ2.questions_asked = σ.questions_asked ∧
    σ2.questions_to_ask_this_session = σ.questions_to_ask_this_session ∧
    σ2.rng_idx = σ.rng_idx)

lemma stepEv_core (env : Env) (σ : AppState) (e : Ev) :
    ResetLike σ (stepEv env σ e) ∨ CoreUnchanged σ (stepEv env σ e) ∨
      StepAdvance σ (stepEv env σ e) := by
  cases e with
  | activate => exact Or.inl ⟨rfl, rfl, rfl, rfl⟩
  | recordBtn =>
    simp only [stepEv, startRecordingRouter, startAudioRecordingCommon]
    split_ifs <;>
      first
        | exact Or.inl ⟨rfl, rfl, rfl, rfl⟩
        | exact Or.inr (Or.inl ⟨rfl, rfl, rfl, rfl⟩)
  | stopBtn =>
    simp only [stepEv, stopAudioRecording]
    split_ifs <;> exact Or.inr (Or.inl ⟨rfl, rfl, rfl, rfl⟩)
  | recorderDone h p =>
    simp only [stepEv, guarded]
    split_ifs with he
    · simp only [onRecordingSessionFinished]
      split_ifs <;>
        first
          | exact Or.inl ⟨rfl, rfl, rfl, rfl⟩
          | exact Or.inr (Or.inl ⟨rfl, rfl, rfl, rfl⟩)
    · exact Or.inr (Or.inl ⟨rfl, rfl, rfl, rfl⟩)
  | recorderErr h m =>
    simp only [stepEv, guarded]
    split_ifs with he
    · exact Or.inl ⟨rfl, rfl, rfl, rfl⟩
    · exact Or.inr (Or.inl ⟨rfl, rfl, rfl, rfl⟩)
  | sttDone h t =>
    simp only [stepEv, guarded]
    split_ifs with he
    · simp only [onSttConversionFinished]
      split_ifs <;>
        first
          | exact Or.inl ⟨rfl, rfl, rfl, rfl⟩
          | exact Or.inr (Or.inl ⟨rfl, rfl, rfl, rfl⟩)
    · exact Or.inr (Or.inl ⟨rfl, rfl, rfl, rfl⟩)
  | sttErr h m =>
    simp only [stepEv, guarded]
    split_ifs with he
    · exact Or.inl ⟨rfl, rfl, rfl, rfl⟩
    · exact Or.inr (Or.inl ⟨rfl, rfl, rfl, rfl⟩)
  | deepseekDone h t =>
    simp only [stepEv, guarded]
    split_ifs with he
    · simp only [onDeepseekResponseReceived]
      split_ifs with hlt
      · exact Or.inr (Or.inr (Or.inl ⟨hlt, rfl, rfl, rfl, rfl⟩))
      · exact Or.inr (Or.inr (Or.inr ⟨hlt, rfl, rfl, rfl, rfl⟩))
    · exact Or.inr (Or.inl ⟨rfl, rfl, rfl, rfl⟩)
  | deepseekErr h m =>
    simp only [stepEv, guarded]
    split_ifs with he
    · exact Or.inl ⟨rfl, rfl, rfl, rfl⟩
    · exact Or.inr (Or.inl ⟨rfl, rfl, rfl, rfl⟩)
  | ttsDone h =>
    simp only [stepEv, guarded]
    split_ifs with he
    · simp only [onTtsPlaybackFinished]
      split_ifs <;>
        first
          | exact Or.inl ⟨rfl, rfl, rfl, rfl⟩
          | exact Or.inr (Or.inl ⟨rfl, rfl, rfl, rfl⟩)
    · exact Or.inr (Or.inl ⟨rfl, rfl, rfl, rfl⟩)
  | ttsErr h m =>
    simp only [stepEv, guarded]
    split_ifs with he
    · exact Or.inl ⟨rfl, rfl, rfl, rfl⟩
    · exact Or.inr (Or.inl ⟨rfl, rfl, rfl, rfl⟩)

/-- The per-session safety invariant: the planned question count is in range,
and either the sorting decision has been delivered after exactly the planned
number of questions, or the step equals the number of questions asked so far,
which never exceeds the plan. -/
def SessionInv (σ : AppState) : Prop :=
  3 ≤ σ.questions_to_ask_this_session ∧ σ.questions_to_ask_this_session ≤ 5 ∧
  ((σ.interaction_step = FINAL_SORTING_STEP_COMPLETE ∧
    σ.questions_asked = σ.questions_to_ask_this_session) ∨
   (σ.interaction_step = σ.questions_asked ∧
    σ.questions_asked ≤ σ.questions_to_ask_this_session))

lemma sessionInv_step (env : Env) (σ : AppState) (e : Ev) (h : SessionInv σ) :
    SessionInv (stepEv env σ e) := by
  have hF : FINAL_SORTING_STEP_COMPLETE = 99 := rfl
  unfold SessionInv at h ⊢
  rcases stepEv_core env σ e with hr | hu | ha
  · obtain ⟨h1, h2, h3, h4⟩ := hr
    omega
  · obtain ⟨h1, h2, h3, h4⟩ := hu
    omega
  · rcases ha with ⟨hc, h1, h2, h3, h4⟩ | ⟨hc, h1, h2, h3, h4⟩ <;> omega

lemma sessionInv_run (env : Env) (evs : List Ev) (σ : AppState) (h : SessionInv σ) :
    SessionInv (runApp env σ evs) := by
  induction evs generalizing σ with
  | nil => exact h
  | cons e rest ih => exact ih (stepEv env σ e) (sessionInv_step env σ e h)

lemma sessionInv_init (rng : Nat → Nat) : SessionInv (initAppState rng) := by
  refine ⟨?_, ?_, Or.inr ⟨rfl, Nat.zero_le _⟩⟩
  · show 3 ≤ 3 + rng 0 % 3
    omega
  · show 3 + rng 0 % 3 ≤ 5
    omega

/-! ### Claim theorems about the orchestrator -/

/-- The `finished_signal` event of a worker kind. -/
def doneEv (k : WorkerKind) (h : Nat) (p : String) : Ev :=
  match k with
  | .recorder => .recorderDone h p
  | .stt => .sttDone h p
  | .deepseek => .deepseekDone h p
  | .tts => .ttsDone h

/-- The `error_signal` event of a worker kind. -/
def errEv (k : WorkerKind) (h : Nat) (m : String) : Ev :=
  match k with
  | .recorder => .recorderErr h m
  | .stt => .sttErr h m
  | .deepseek => .deepseekErr h m
  | .tts => .ttsErr h m

/-- **C1.** For every worker kind: start a worker, cancel it
(`_stop_all_active_workers` disconnects its signals); if it still reports
success or error afterwards, the delivery invokes no slot and the entire
orchestrator state — in particular `interaction_step`,
`questions_to_ask_this_session`, the oracle state and the button enablement —
is unchanged.  (Supersession in the source always goes through the same
disconnect-first path.) -/
theorem cancelled_worker_completion_dropped (env : Env) (σ : AppState)
    (k : WorkerKind) (p m : String) :
    connOf k (stopAllActiveWorkers (startWorker k σ)) = none ∧
    stepEv env (stopAllActiveWorkers (startWorker k σ)) (doneEv k σ.next_handle p) =
      stopAllActiveWorkers (startWorker k σ) ∧
    stepEv env (stopAllActiveWorkers (startWorker k σ)) (errEv k σ.next_handle m) =
      stopAllActiveWorkers (startWorker k σ) ∧
    stepEv env (startWorker k (stopAllActiveWorkers (startWorker k σ)))
        (doneEv k σ.next_handle p) =
      startWorker k (stopAllActiveWorkers (startWorker k σ)) := by
  cases k <;>
    refine ⟨rfl, rfl, rfl, ?_⟩ <;>
      simp [stepEv, guarded, doneEv, startWorker, stopAllActiveWorkers,
        Nat.succ_ne_self]

/-- **C3.** The dialogue-success handler increments the step below
`questions_to_ask_this_session` and otherwise sets the terminal sentinel; and
over every run of the orchestrator from the initial state, the number of
questions asked this session never exceeds the planned count, and the terminal
step is reached only with exactly the planned number of questions asked. -/
theorem deepseek_step_advance_and_session_bounds :
    (∀ (σ : AppState) (t : String),
      (σ.interaction_step < σ.questions_to_ask_this_session →
        (onDeepseekResponseReceived t σ).interaction_step = σ.interaction_step + 1) ∧
      (¬ σ.interaction_step < σ.questions_to_ask_this_session →
        (onDeepseekResponseReceived t σ).interaction_step = FINAL_SORTING_STEP_COMPLETE)) ∧
    ∀ (env : Env) (rng : Nat → Nat) (evs : List Ev),
      (runApp env (initAppState rng) evs).questions_asked ≤
        (runApp env (initAppState rng) evs).questions_to_ask_this_session ∧
      ((runApp env (initAppState rng) evs).interaction_step =
          FINAL_SORTING_STEP_COMPLETE →
        (runApp env (initAppState rng) evs).questions_asked =
          (runApp env (initAppState rng) evs).questions_to_ask_this_session) := by
  constructor
  · intro σ t
    constructor
    · intro hlt
      simp [onDeepseekResponseReceived, startWorker, setStatus, hlt]
    · intro hge
      simp [onDeepseekResponseReceived, startWorker, setStatus, hge]
  · intro env rng evs
    have h := sessionInv_run env evs (initAppState rng) (sessionInv_init rng)
    have hF : FINAL_SORTING_STEP_COMPLETE = 99 := rfl
    unfold SessionInv at h
    exact ⟨by omega, fun hterm => by omega⟩

/-- Concrete orchestrator state for the C3 witness: step 1 of a 4-question
session, dialogue worker 3 connected. -/
def c3State : AppState :=
  { interaction_step := 1, questions_to_ask_this_session := 4,
    current_oracle_state := .thinking, activate_enabled := true,
    record_enabled := true, stop_enabled := false, status := "",
    oracle_text := "", your_text := "", just_sorted_flag := false,
    anim_cmd := none, recorder_conn := none, stt_conn := none,
    deepseek_conn := some 3, tts_conn := none, next_handle := 4,
    rng := fun _ => 1, rng_idx := 1, questions_asked := 1, errors_shown := 0 }

/-- Witness for C3: a dialogue success at step 1 of a 4-question session
advances the step to 2. -/
theorem deepseek_step_advance_witness :
    (onDeepseekResponseReceived "Question 2" c3State).interaction_step =
      c3State.interaction_step + 1 :=
  (deepseek_step_advance_and_session_bounds.1 c3State "Question 2").1 (by decide)

/-- The planned question count either stays unchanged by a transition, or the
transition performed a session reset (the randomness cursor advanced) and the
fresh count is again within `[3, 5]`. -/
def QPreserved (σ σ2 : AppState) : Prop :=
  σ2.questions_to_ask_this_session = σ.questions_to_ask_this_session ∨
  (σ2.rng_idx = σ.rng_idx + 1 ∧ 3 ≤ σ2.questions_to_ask_this_session ∧
    σ2.questions_to_ask_this_session ≤ 5)

/-- **C9.** Every session start (`_reset_interaction_flow_and_ui`) chooses
`questions_to_ask_this_session` within `[3, 5]` (randomness modelled by the
draw stream; `randint(3, 5)`'s uniformity is the PRNG contract), and no
transition changes the chosen value except by performing the next reset, which
again chooses within `[3, 5]`. -/
theorem questions_planned_in_range_and_fixed :
    (∀ (msg : String) (σ : AppState),
      3 ≤ (resetInteractionFlowAndUi msg σ).questions_to_ask_this_session ∧
      (resetInteractionFlowAndUi msg σ).questions_to_ask_this_session ≤ 5) ∧
    ∀ (env : Env) (σ : AppState) (e : Ev), QPreserved σ (stepEv env σ e) := by
  constructor
  · intro msg σ
    constructor
    · show 3 ≤ 3 + σ.rng σ.rng_idx % 3
      omega
    · show 3 + σ.rng σ.rng_idx % 3 ≤ 5
      omega
  · intro env σ e
    rcases stepEv_core env σ e with hr | hu | ha
    · obtain ⟨_, _, h3, h4⟩ := hr
      exact Or.inr ⟨h4, by omega, by omega⟩
    · exact Or.inl hu.2.2.1
    · rcases ha with ⟨_, _, _, h3, _⟩ | ⟨_, _, _, h3, _⟩ <;> exact Or.inl h3

/-- **C2 (amended).** On blank transcription or empty/too-short capture the
orchestrator surfaces the error (a warning box) but then performs the same full
session reset as any other error: the step returns to 0, the asked-count is
cleared, `questions_to_ask_this_session` is re-drawn (again within `[3, 5]`),
and the session returns to the idle state with recording re-enabled — the user
retries from question 1 of a fresh session, not from the same step. -/
theorem recoverable_errors_full_reset (env : Env) (σ : AppState) (h : Nat) :
    (∀ text, σ.stt_conn = some h → pyStrip text = "" →
      (stepEv env σ (.sttDone h text)).interaction_step = 0 ∧
      (stepEv env σ (.sttDone h text)).questions_asked = 0 ∧
      3 ≤ (stepEv env σ (.sttDone h text)).questions_to_ask_this_session ∧
      (stepEv env σ (.sttDone h text)).questions_to_ask_this_session ≤ 5 ∧
      (stepEv env σ (.sttDone h text)).rng_idx = σ.rng_idx + 1 ∧
      (stepEv env σ (.sttDone h text)).errors_shown = σ.errors_shown + 1 ∧
      (stepEv env σ (.sttDone h text)).record_enabled = true ∧
      (stepEv env σ (.sttDone h text)).current_oracle_state = .idle) ∧
    (∀ path, σ.recorder_conn = some h →
      (path = "" ∨ env.fileExists path = false ∨ env.fileSize path < 1024) →
      (stepEv env σ (.recorderDone h path)).interaction_step = 0 ∧
      (stepEv env σ (.recorderDone h path)).questions_asked = 0 ∧
      3 ≤ (stepEv env σ (.recorderDone h path)).questions_to_ask_this_session ∧
      (stepEv env σ (.recorderDone h path)).questions_to_ask_this_session ≤ 5 ∧
      (stepEv env σ (.recorderDone h path)).rng_idx = σ.rng_idx + 1 ∧
      (stepEv env σ (.recorderDone h path)).errors_shown = σ.errors_shown + 1 ∧
      (stepEv env σ (.recorderDone h path)).record_enabled = true ∧
      (stepEv env σ (.recorderDone h path)).current_oracle_state = .idle) := by
  constructor
  · intro text hconn hblank
    have hg : stepEv env σ (.sttDone h text) = onSttConversionFinished env text σ := by
      simp [stepEv, guarded, hconn]
    rw [hg]
    unfold onSttConversionFinished
    rw [if_pos hblank]
    refine ⟨rfl, rfl, ?_, ?_, rfl, rfl, rfl, rfl⟩
    · show 3 ≤ 3 + σ.rng σ.rng_idx % 3
      omega
    · show 3 + σ.rng σ.rng_idx % 3 ≤ 5
      omega
  · intro path hconn hbad
    have hg : stepEv env σ (.recorderDone h path) =
        onRecordingSessionFinished env path σ := by
      simp [stepEv, guarded, hconn]
    rw [hg]
    unfold onRecordingSessionFinished
    rw [if_pos hbad]
    refine ⟨rfl, rfl, ?_, ?_, rfl, rfl, rfl, rfl⟩
    · show 3 ≤ 3 + σ.rng σ.rng_idx % 3
      omega
    · show 3 + σ.rng σ.rng_idx % 3 ≤ 5
      omega

/-- Environment for the C2 counterexample/witness: files exist but the capture
artifact is 100 bytes (below the 1024-byte threshold). -/
def c2Env : Env := ⟨fun _ => true, fun _ => 100, true⟩

/-- Mid-session orchestrator state for C2: the user is answering question 2 of
a 4-question session and the transcription worker 7 is connected. -/
def c2State : AppState :=
  { interaction_step := 2, questions_to_ask_this_session := 4,
    current_oracle_state := .thinking, activate_enabled := true,
    record_enabled := true, stop_enabled := false, status := "",
    oracle_text := "", your_text := "", just_sorted_flag := false,
    anim_cmd := some .thinkingLoop, recorder_conn := none, stt_conn := some 7,
    deepseek_conn := none, tts_conn := none, next_handle := 8,
    rng := fun _ => 0, rng_idx := 1, questions_asked := 2, errors_shown := 0 }

/-- Like `c2State` but awaiting the capture worker 9. -/
def c2RecState : AppState :=
  { c2State with stt_conn := none, recorder_conn := some 9 }

/-- **C2 (counterexample).** Blank transcription while at step 2 of a
4-question session: the code does NOT keep the step counter — it resets it to 0
and re-draws the session plan (the randomness cursor advances), i.e. it performs
a full session reset, contrary to the claim. -/
theorem blank_transcription_not_locally_recovered :
    c2State.interaction_step = 2 ∧
    pyStrip " " = "" ∧
    (stepEv c2Env c2State (.sttDone 7 " ")).interaction_step ≠
      c2State.interaction_step ∧
    (stepEv c2Env c2State (.sttDone 7 " ")).interaction_step = 0 ∧
    (stepEv c2Env c2State (.sttDone 7 " ")).rng_idx = c2State.rng_idx + 1 := by
  refine ⟨rfl, by decide, by decide, by decide, by decide⟩

/-- Witness for C2 (amended) at concrete inputs: blank transcription at worker
handle 7, and a 100-byte capture artifact at worker handle 9. -/
theorem recoverable_errors_full_reset_witness :
    ((stepEv c2Env c2State (.sttDone 7 " ")).interaction_step = 0 ∧
     (stepEv c2Env c2State (.sttDone 7 " ")).questions_asked = 0 ∧
     3 ≤ (stepEv c2Env c2State (.sttDone 7 " ")).questions_to_ask_this_session ∧
     (stepEv c2Env c2State (.sttDone 7 " ")).questions_to_ask_this_session ≤ 5 ∧
     (stepEv c2Env c2State (.sttDone 7 " ")).rng_idx = c2State.rng_idx + 1 ∧
     (stepEv c2Env c2State (.sttDone 7 " ")).errors_shown = c2State.errors_shown + 1 ∧
     (stepEv c2Env c2State (.sttDone 7 " ")).record_enabled = true ∧
     (stepEv c2Env c2State (.sttDone 7 " ")).current_oracle_state = .idle) ∧
    ((stepEv c2Env c2RecState (.recorderDone 9 "student_intro.wav")).interaction_step = 0 ∧
     (stepEv c2Env c2RecState (.recorderDone 9 "student_intro.wav")).questions_asked = 0 ∧
     3 ≤ (stepEv c2Env c2RecState
        (.recorderDone 9 "student_intro.wav")).questions_to_ask_this_session ∧
     (stepEv c2Env c2RecState
        (.recorderDone 9 "student_intro.wav")).questions_to_ask_this_session ≤ 5 ∧
     (stepEv c2Env c2RecState (.recorderDone 9 "student_intro.wav")).rng_idx =
        c2RecState.rng_idx + 1 ∧
     (stepEv c2Env c2RecState (.recorderDone 9 "student_intro.wav")).errors_shown =
        c2RecState.errors_shown + 1 ∧
     (stepEv c2Env c2RecState (.recorderDone 9 "student_intro.wav")).record_enabled = true ∧
     (stepEv c2Env c2RecState
        (.recorderDone 9 "student_intro.wav")).current_oracle_state = .idle) :=
  ⟨(recoverable_errors_full_reset c2Env c2State 7).1 " " rfl (by decide),
   (recoverable_errors_full_reset c2Env c2RecState 9).2 "student_intro.wav" rfl
     (Or.inr (Or.inr (by decide)))⟩

end SortingHat
